import Mathlib

/-!
Shallow embedding of the concurrency core of the opencv-video-loops
repository (src/src/video_stream_abc.py and the concrete per-frame
transforms), together with theorems settling the spec claims about it.

The image payload is never inspected by the core, so every definition is
parametric in a type Img; a frame read from the source or held in the
shared slot is an Option Img (none models the Python value None).
Loop bodies are embedded as pure state-transition functions that also
return the list of observable events the iteration performs, in source
order; whole-loop runs fold the iteration over a finite trace of inputs
(read results for the grab loop, observations for the proc loop).
-/

namespace VideoLoops

/-- Constant from video_stream_abc.py: the number of maximum successive
dropped frames before we quit. -/
def MAX_SUCCESSIVE_DROPPED_FRAMES : Nat := 100

/-- Constant from video_stream_abc.py: msecs to wait upon dropped frame. -/
def DROPPED_FRAME_WAIT_MSEC : Nat := 10

/-- Output channels of the Python process. -/
inductive Channel where
  | stdout
  | stderr
deriving DecidableEq, Repr

/-- Modelled from the spec: the FPS throughput counter (fps.py) is imported
by video_stream_abc.py but its source file is not part of the sources given;
spec section 4.1 (ThroughputCounter): start records the current time and
resets the count to 0, update increments the count by one, stop records the
current time freezing elapsed, elapsed returns stop minus start when stopped
and now minus start otherwise, and the rate is count over elapsed, guarded to
0 when elapsed is 0. Wall-clock time is modelled as a natural number. -/
structure FPS where
  start_time : Nat
  stop_time : Option Nat
  n_frames : Nat
deriving DecidableEq, Repr

def FPS.start (now : Nat) (_f : FPS) : FPS :=
  { start_time := now, stop_time := none, n_frames := 0 }

def FPS.update (f : FPS) : FPS :=
  { f with n_frames := f.n_frames + 1 }

def FPS.stop (now : Nat) (f : FPS) : FPS :=
  { f with stop_time := some now }

def FPS.elapsed (now : Nat) (f : FPS) : Nat :=
  (f.stop_time.getD now) - f.start_time

def FPS.fps (now : Nat) (f : FPS) : ℚ :=
  if f.elapsed now = 0 then 0 else (f.n_frames : ℚ) / (f.elapsed now : ℚ)

/-- One statistics line of VideoStreamABC.stop, with the value it carries
(the Python code renders it with a format string; the line identity and its
payload are what we track). -/
inductive StatLine where
  | grabElapsed (v : Nat)
  | grabFPS (v : ℚ)
  | grabNFrames (n : Nat)
  | procElapsed (v : Nat)
  | procFPS (v : ℚ)
  | procNFrames (n : Nat)
deriving DecidableEq, Repr

/-- Observable process-level events performed by VideoStreamABC.stop, in
source order. -/
inductive SysEvent where
  | outLine (c : Channel) (l : StatLine)
  | stopGrabThread
  | stopProcThread
  | destroyAllWindows
  | sysExit (code : Nat)
deriving DecidableEq, Repr

/-- The channel of a statistics output event, when the event is one. -/
def SysEvent.statChannel : SysEvent → Option Channel
  | .outLine c _ => some c
  | _ => none

/-- Whether the event is a statistics output line. -/
def SysEvent.isStatLine : SysEvent → Bool
  | .outLine _ _ => true
  | _ => false

/-- Whether the event releases the display resources. -/
def SysEvent.isDestroy : SysEvent → Bool
  | .destroyAllWindows => true
  | _ => false

/-- The pipeline state touched by VideoStreamABC.stop: the two
StoppableThread objects, each carrying its FPS counter and its stop event
flag (the Event object set by StoppableThread.stop). -/
structure PipelineCtl where
  grab_fps : FPS
  proc_fps : FPS
  grab_stop_event : Bool
  proc_stop_event : Bool
deriving DecidableEq, Repr

/-- eprint from video_stream_abc.py: same as print but goes to stderr. -/
def eprint (l : StatLine) : SysEvent :=
  SysEvent.outLine Channel.stderr l

/-- VideoStreamABC.stop, line for line: stop both FPS counters, print the
six statistics lines with plain print (which writes to standard output, not
through eprint), set both thread stop events, destroy all windows, and call
sys.exit(0). Returns the new control state and the events in order. -/
def VideoStreamABC.stop (now : Nat) (s : PipelineCtl) : PipelineCtl × List SysEvent :=
  let gf := s.grab_fps.stop now
  let pf := s.proc_fps.stop now
  ({ grab_fps := gf, proc_fps := pf, grab_stop_event := true, proc_stop_event := true },
   [ SysEvent.outLine Channel.stdout (StatLine.grabElapsed (gf.elapsed now)),
     SysEvent.outLine Channel.stdout (StatLine.grabFPS (gf.fps now)),
     SysEvent.outLine Channel.stdout (StatLine.grabNFrames gf.n_frames),
     SysEvent.outLine Channel.stdout (StatLine.procElapsed (pf.elapsed now)),
     SysEvent.outLine Channel.stdout (StatLine.procFPS (pf.fps now)),
     SysEvent.outLine Channel.stdout (StatLine.procNFrames pf.n_frames),
     SysEvent.stopGrabThread,
     SysEvent.stopProcThread,
     SysEvent.destroyAllWindows,
     SysEvent.sysExit 0 ])

/-- The events of two sequential invocations of VideoStreamABC.stop, the
second starting from the state the first left behind (the re-entry
scenario of the shutdown protocol). -/
def stopTwiceEvents (s : PipelineCtl) (t1 t2 : Nat) : List SysEvent :=
  (VideoStreamABC.stop t1 s).2
    ++ (VideoStreamABC.stop t2 (VideoStreamABC.stop t1 s).1).2

/-- State carried across grab-loop iterations: the shared frame slot
(self.frame, guarded by self.frame_lock), the grab counter
(self.grab_thread.fps.n_frames), the local n_dropped_frames variable, and
the grab thread stop event checked by the while condition. -/
structure GrabState (Img : Type) where
  frame : Option Img
  grab_n_frames : Nat
  n_dropped_frames : Nat
  stop_requested : Bool
deriving DecidableEq, Repr

/-- Observable events of one grab-loop iteration, in source order. A
stopCall event would mark an invocation of full shutdown from the grab
loop; the dropped-frame block that would produce it is commented out in
the source, so grab_iter never emits it. -/
inductive GrabEvent (Img : Type) where
  | read (got_one : Bool) (f : Option Img)
  | writeSlot (f : Option Img)
  | pace
  | fpsUpdate
  | stopCall
deriving DecidableEq, Repr

/-- One iteration of the while body of VideoStreamABC.grab_thread_loop, as
shipped: read from the stream, ignore got_one (the dropped-frame counting
block is commented out in the source), write the returned frame into the
shared slot under the lock, run the pacer when one is configured, and
update the grab FPS counter. -/
def grab_iter {Img : Type} (res : Bool × Option Img) (hasPacer : Bool)
    (s : GrabState Img) : GrabState Img × List (GrabEvent Img) :=
  let got_one := res.1
  let fr := res.2
  let s1 : GrabState Img := { s with frame := fr }
  let s2 : GrabState Img := { s1 with grab_n_frames := s1.grab_n_frames + 1 }
  (s2,
   [GrabEvent.read got_one fr, GrabEvent.writeSlot fr]
     ++ (if hasPacer then [GrabEvent.pace] else [])
     ++ [GrabEvent.fpsUpdate])

/-- The while loop of grab_thread_loop over a finite trace of read
results, re-checking is_stopped before each iteration. -/
def grab_run {Img : Type} (hasPacer : Bool) :
    List (Bool × Option Img) → GrabState Img → GrabState Img × List (GrabEvent Img)
  | [], s => (s, [])
  | r :: rs, s =>
    if s.stop_requested then (s, [])
    else
      let p := grab_iter r hasPacer s
      let q := grab_run hasPacer rs p.1
      (q.1, p.2 ++ q.2)

/-- VideoStreamABC.grab_thread_loop from its entry: the pacer is started,
fps.start resets the grab counter to 0, n_dropped_frames is initialised to
0, the stop event is not set, and the loop runs over the trace of read
results. slot0 is the content of the shared slot at entry (None before the
first grab). -/
def grab_thread_loop {Img : Type} (hasPacer : Bool) (slot0 : Option Img)
    (reads : List (Bool × Option Img)) : GrabState Img × List (GrabEvent Img) :=
  grab_run hasPacer reads
    { frame := slot0, grab_n_frames := 0, n_dropped_frames := 0, stop_requested := false }

/-- What one proc-loop iteration observes from its environment: the grab
counter read at the top of the iteration, the shared slot content read
under the lock, and the value cv2.waitKey(1) would return this iteration
(27 is the ESC cancel key, -1 means no key). -/
structure ProcObs (Img : Type) where
  count : Nat
  slot : Option Img
  key : Int
deriving DecidableEq, Repr

/-- Observable events of one proc-loop iteration, in source order. The
transform event records the grab-counter value of the iteration and the
frame handed to process_frame. -/
inductive ProcEvent (Img : Type) where
  | readSlot (f : Option Img)
  | pollKey (k : Int)
  | stopCall
  | transform (count : Nat) (f : Img)
  | imshow (f : Img)
  | fpsUpdate
  | pace
deriving DecidableEq, Repr

/-- Result of one proc-loop iteration: the new prev_count, the events in
order, and whether the iteration terminated the loop (self.stop raises
SystemExit inside the proc thread, so nothing after it runs). -/
structure ProcStep (Img : Type) where
  prev_count : Nat
  events : List (ProcEvent Img)
  halted : Bool
deriving DecidableEq, Repr

/-- One iteration of the while body of VideoStreamABC.proc_thread_loop:
read the grab counter; only if it advanced past prev_count, read the slot
under the lock, test frame is None or cv2.waitKey(1) == 27 (Python or
short-circuits, so an absent frame is not followed by a key poll), on that
test invoke full shutdown (stop raises SystemExit, halting the loop),
otherwise run process_frame, imshow the result, set prev_count to count and
update the proc FPS counter; finally run the pacer when configured. -/
def proc_iter {Img : Type} (process_frame : Img → Img) (hasPacer : Bool)
    (prev_count : Nat) (o : ProcObs Img) : ProcStep Img :=
  if prev_count < o.count then
    match o.slot with
    | none =>
      { prev_count := prev_count
        events := [ProcEvent.readSlot none, ProcEvent.stopCall]
        halted := true }
    | some f =>
      if o.key = 27 then
        { prev_count := prev_count
          events := [ProcEvent.readSlot (some f), ProcEvent.pollKey o.key,
                     ProcEvent.stopCall]
          halted := true }
      else
        { prev_count := o.count
          events := [ProcEvent.readSlot (some f), ProcEvent.pollKey o.key,
                     ProcEvent.transform o.count f,
                     ProcEvent.imshow (process_frame f), ProcEvent.fpsUpdate]
            ++ (if hasPacer then [ProcEvent.pace] else [])
          halted := false }
  else
    { prev_count := prev_count
      events := if hasPacer then [ProcEvent.pace] else []
      halted := false }

/-- The while loop of proc_thread_loop over a finite trace of
observations, starting from a given prev_count; a halted iteration (stop
raised SystemExit) ends the run. Returns the events of the whole run and
whether it halted. -/
def proc_run {Img : Type} (process_frame : Img → Img) (hasPacer : Bool)
    (prev_count : Nat) : List (ProcObs Img) → List (ProcEvent Img) × Bool
  | [] => ([], false)
  | o :: os =>
    let st := proc_iter process_frame hasPacer prev_count o
    if st.halted then (st.events, true)
    else
      let rest := proc_run process_frame hasPacer st.prev_count os
      (st.events ++ rest.1, rest.2)

/-- The (counter, frame) pair of a transform event, when the event is
one. -/
def ProcEvent.transformPair {Img : Type} : ProcEvent Img → Option (Nat × Img)
  | .transform c f => some (c, f)
  | _ => none

/-- Whether the event polls cv2.waitKey. -/
def ProcEvent.isPollKey {Img : Type} : ProcEvent Img → Bool
  | .pollKey _ => true
  | _ => false

/-- The (counter, frame) pairs handed to the transform, in event order. -/
def transformPairs {Img : Type} (es : List (ProcEvent Img)) : List (Nat × Img) :=
  es.filterMap ProcEvent.transformPair

/-- Whether a grab event is an invocation of full shutdown. -/
def GrabEvent.isStopCall {Img : Type} : GrabEvent Img → Bool
  | .stopCall => true
  | _ => false

/-- Exceptions as the Python code distinguishes them: the raise statement
in VideoStreamABC.process_frame constructs the builtin Exception class;
NotImplementedError is a different builtin class. -/
inductive PyError where
  | exception (msg : String)
  | notImplementedError (msg : String)
deriving DecidableEq, Repr

/-- Whether the error is of the NotImplementedError class. -/
def PyError.isNotImplementedKind : PyError → Bool
  | .notImplementedError _ => true
  | _ => false

/-- The message of the raise statement in VideoStreamABC.process_frame. -/
def abstractMethodMsg : String :=
  "Abstract method process_frame() not implemented!"

/-- VideoStreamABC.process_frame, the abstract-method body: it raises
Exception(abstractMethodMsg) for every frame. In Python 3 the class sets
only a __metaclass__ attribute (Python 2 style), which has no effect, so
construction never enforces the hook; the error appears at the first
invocation. -/
def VideoStreamABC.process_frame {Img : Type} (_frame : Img) : Except PyError Img :=
  Except.error (PyError.exception abstractMethodMsg)

/-- The instance attributes of AvgFrames (avg_frames.py) that its
process_frame touches: its own accumulator self.avg_frame, and the shared
frame slot self.frame inherited from VideoStreamABC. -/
structure AvgFramesState (Img : Type) where
  avg_frame : Option Img
  frame : Option Img
deriving DecidableEq, Repr

/-- AvgFrames.process_frame from avg_frames.py. The numpy and cv2
operations float32, accumulateWeighted and convertScaleAbs are external
library calls, taken as parameters; cv2.accumulateWeighted(src, dst, alpha)
updates dst in place and returns it, so on the non-first call
self.avg_frame becomes the accumulated average and the source assigns that
same result to self.frame — the shared frame slot — without holding the
lock. -/
def AvgFrames.process_frame {Img : Type} (float32 : Img → Img)
    (accumulateWeighted : Img → Img → Img) (convertScaleAbs : Img → Img)
    (s : AvgFramesState Img) (frame : Img) : AvgFramesState Img × Img :=
  let f := float32 frame
  match s.avg_frame with
  | none =>
    ({ s with avg_frame := some f }, convertScaleAbs f)
  | some avg =>
    let newAvg := accumulateWeighted f avg
    ({ avg_frame := some newAvg, frame := some newAvg }, convertScaleAbs newAvg)

/-- Helper: one grab iteration never invokes shutdown, leaves the stop
flag unchanged, and advances the grab counter by one. -/
lemma grab_iter_basic {Img : Type} (r : Bool × Option Img) (hasPacer : Bool)
    (s : GrabState Img) :
    ((grab_iter r hasPacer s).2.countP GrabEvent.isStopCall = 0)
    ∧ ((grab_iter r hasPacer s).1.stop_requested = s.stop_requested)
    ∧ ((grab_iter r hasPacer s).1.grab_n_frames = s.grab_n_frames + 1) := by
  cases hasPacer <;>
    simp [grab_iter, GrabEvent.isStopCall, List.countP_cons, List.countP_append]

/-- Helper: a grab run never invokes shutdown, never changes the stop
flag, and (when not already stopped) advances the counter once per read. -/
lemma grab_run_basic {Img : Type} (hasPacer : Bool)
    (reads : List (Bool × Option Img)) :
    ∀ (s : GrabState Img),
      ((grab_run hasPacer reads s).2.countP GrabEvent.isStopCall = 0)
      ∧ ((grab_run hasPacer reads s).1.stop_requested = s.stop_requested)
      ∧ (s.stop_requested = false →
          (grab_run hasPacer reads s).1.grab_n_frames
            = s.grab_n_frames + reads.length) := by
  induction reads with
  | nil => intro s; simp [grab_run]
  | cons r rs ih =>
    intro s
    by_cases h : s.stop_requested
    · simp [grab_run, h]
    · obtain ⟨h1, h2, h3⟩ := grab_iter_basic r hasPacer s
      obtain ⟨i1, i2, i3⟩ := ih (grab_iter r hasPacer s).1
      refine ⟨?_, ?_, ?_⟩
      · simp [grab_run, h, List.countP_append, h1, i1]
      · simp [grab_run, h, i2, h2]
      · intro _
        have := i3 (by rw [h2]; exact eq_false_of_ne_true h)
        simp [grab_run, h, this, h3]
        omega

/-- Claim C10: in every grab-loop iteration, whatever the read returns is
written into the shared frame slot unconditionally, regardless of the
success flag, and the grab counter still advances for that iteration. -/
theorem grab_iter_writes_unconditionally {Img : Type} (got_one : Bool)
    (f : Option Img) (hasPacer : Bool) (s : GrabState Img) :
    ((grab_iter (got_one, f) hasPacer s).1.frame = f)
    ∧ ((grab_iter (got_one, f) hasPacer s).1.grab_n_frames = s.grab_n_frames + 1)
    ∧ ((grab_iter (got_one, f) hasPacer s).2.countP GrabEvent.isStopCall = 0) := by
  refine ⟨rfl, rfl, (grab_iter_basic (got_one, f) hasPacer s).1⟩

/-- Claim C1 counterexample: a source that fails every read does not cause
shutdown after MAX_SUCCESSIVE_DROPPED_FRAMES (100) consecutive failures:
the grab loop run over 100 failing reads invokes no shutdown, the stop flag
is still unset, and the loop has consumed all 100 reads and keeps going. -/
theorem grab_hundred_failures_no_shutdown :
    ((grab_thread_loop true none
        (List.replicate MAX_SUCCESSIVE_DROPPED_FRAMES
          ((false : Bool), (none : Option Nat)))).2.countP
        GrabEvent.isStopCall = 0)
    ∧ ((grab_thread_loop true none
        (List.replicate MAX_SUCCESSIVE_DROPPED_FRAMES
          ((false : Bool), (none : Option Nat)))).1.stop_requested = false)
    ∧ ((grab_thread_loop true none
        (List.replicate MAX_SUCCESSIVE_DROPPED_FRAMES
          ((false : Bool), (none : Option Nat)))).1.grab_n_frames = 100) := by
  have h := @grab_run_basic Nat true
    (List.replicate MAX_SUCCESSIVE_DROPPED_FRAMES ((false : Bool), (none : Option Nat)))
    { frame := none, grab_n_frames := 0, n_dropped_frames := 0, stop_requested := false }
  exact ⟨h.1, h.2.1, by have := h.2.2 rfl; simpa [grab_thread_loop] using this⟩

/-- Claim C1 (amended): the dropped-frame block of the grab loop is
commented out in the source, so the success flag is ignored and the grab
loop never invokes shutdown, however many consecutive reads fail; every
read, failed or not, is consumed and advances the counter. -/
theorem grab_loop_never_aborts {Img : Type} (hasPacer : Bool)
    (slot0 : Option Img) (reads : List (Bool × Option Img)) :
    ((grab_thread_loop hasPacer slot0 reads).2.countP GrabEvent.isStopCall = 0)
    ∧ ((grab_thread_loop hasPacer slot0 reads).1.stop_requested = false)
    ∧ ((grab_thread_loop hasPacer slot0 reads).1.grab_n_frames = reads.length) := by
  have h := grab_run_basic hasPacer reads
    { frame := slot0, grab_n_frames := 0, n_dropped_frames := 0, stop_requested := false }
  exact ⟨h.1, h.2.1, by have := h.2.2 rfl; simpa [grab_thread_loop] using this⟩

/-- Claim C6 counterexample: in a grab iteration with a pacer, the pacer
runs before the throughput counter update, so the event order claimed by
the spec (read, write, counter update, pace) does not occur. -/
theorem grab_iter_order_counterexample :
    ((grab_iter ((true, some (0 : Nat))) true
        { frame := none, grab_n_frames := 0, n_dropped_frames := 0,
          stop_requested := false }).2
      = [GrabEvent.read true (some 0), GrabEvent.writeSlot (some 0),
         GrabEvent.pace, GrabEvent.fpsUpdate])
    ∧ ¬ ((grab_iter ((true, some (0 : Nat))) true
        { frame := none, grab_n_frames := 0, n_dropped_frames := 0,
          stop_requested := false }).2
      = [GrabEvent.read true (some 0), GrabEvent.writeSlot (some 0),
         GrabEvent.fpsUpdate, GrabEvent.pace]) := by
  decide

/-- Claim C6 (amended): each grab-loop iteration performs, in order: read
a frame from the source, write it into the shared slot, apply the pacer
(when one is configured), and then update the grab throughput counter. -/
theorem grab_iter_event_order {Img : Type} (got_one : Bool) (f : Option Img)
    (s : GrabState Img) :
    ((grab_iter (got_one, f) true s).2
      = [GrabEvent.read got_one f, GrabEvent.writeSlot f,
         GrabEvent.pace, GrabEvent.fpsUpdate])
    ∧ ((grab_iter (got_one, f) false s).2
      = [GrabEvent.read got_one f, GrabEvent.writeSlot f,
         GrabEvent.fpsUpdate]) :=
  ⟨rfl, rfl⟩

/-- Helper: one proc iteration either invokes no transform and keeps
prev_count, or its counter observation advanced and it invokes the
transform exactly once, on the frame found in the slot, updating
prev_count to the observed counter. -/
lemma proc_iter_transform_cases {Img : Type} (process_frame : Img → Img)
    (hasPacer : Bool) (prev_count : Nat) (o : ProcObs Img) :
    (transformPairs (proc_iter process_frame hasPacer prev_count o).events = []
      ∧ (proc_iter process_frame hasPacer prev_count o).prev_count = prev_count)
    ∨ (∃ f, o.slot = some f
        ∧ transformPairs (proc_iter process_frame hasPacer prev_count o).events
            = [(o.count, f)]
        ∧ (proc_iter process_frame hasPacer prev_count o).prev_count = o.count
        ∧ prev_count < o.count) := by
  rcases o with ⟨c, slot, k⟩
  by_cases h : prev_count < c
  · cases slot with
    | none =>
      left
      simp [proc_iter, h, transformPairs, ProcEvent.transformPair]
    | some f =>
      by_cases hk : k = 27
      · left
        simp [proc_iter, h, hk, transformPairs, ProcEvent.transformPair]
      · right
        refine ⟨f, rfl, ?_, ?_, h⟩
        · cases hasPacer <;>
            simp [proc_iter, h, hk, transformPairs, ProcEvent.transformPair]
        · simp [proc_iter, h, hk]
  · left
    cases hasPacer <;> simp [proc_iter, h, transformPairs, ProcEvent.transformPair]

/-- Helper: transformPairs distributes over event-list concatenation. -/
lemma transformPairs_append {Img : Type} (a b : List (ProcEvent Img)) :
    transformPairs (a ++ b) = transformPairs a ++ transformPairs b := by
  simp [transformPairs]

/-- Helper: the events of a run over a cons trace are the first iteration
followed by the rest of the run, which is empty when the first iteration
halted the loop. -/
lemma proc_run_cons {Img : Type} (process_frame : Img → Img) (hasPacer : Bool)
    (prev_count : Nat) (o : ProcObs Img) (os : List (ProcObs Img)) :
    (proc_run process_frame hasPacer prev_count (o :: os)).1
      = (proc_iter process_frame hasPacer prev_count o).events
        ++ (if (proc_iter process_frame hasPacer prev_count o).halted then []
            else (proc_run process_frame hasPacer
                    (proc_iter process_frame hasPacer prev_count o).prev_count os).1) := by
  by_cases hh : (proc_iter process_frame hasPacer prev_count o).halted <;>
    simp [proc_run, hh]

/-- Helper: every transform invocation in a proc run happens at a counter
value strictly greater than the prev_count the run started from. -/
lemma proc_run_transform_gt {Img : Type} (process_frame : Img → Img)
    (hasPacer : Bool) (os : List (ProcObs Img)) :
    ∀ (prev_count : Nat) (pr : Nat × Img),
      pr ∈ transformPairs (proc_run process_frame hasPacer prev_count os).1 →
        prev_count < pr.1 := by
  induction os with
  | nil =>
    intro prev pr h
    simp [proc_run, transformPairs] at h
  | cons o os ih =>
    intro prev pr h
    rw [proc_run_cons] at h
    by_cases hh : (proc_iter process_frame hasPacer prev o).halted
    · rw [if_pos hh, List.append_nil] at h
      rcases proc_iter_transform_cases process_frame hasPacer prev o with
        ⟨he, _⟩ | ⟨f, _, he, _, hlt⟩
      · rw [he] at h; simp at h
      · rw [he] at h
        have hpr := List.mem_singleton.mp h
        subst hpr
        exact hlt
    · rw [if_neg hh, transformPairs_append] at h
      rcases List.mem_append.mp h with h1 | h2
      · rcases proc_iter_transform_cases process_frame hasPacer prev o with
          ⟨he, _⟩ | ⟨f, _, he, _, hlt⟩
        · rw [he] at h1; simp at h1
        · rw [he] at h1
          have hpr := List.mem_singleton.mp h1
          subst hpr
          exact hlt
      · have hrec := ih _ pr h2
        rcases proc_iter_transform_cases process_frame hasPacer prev o with
          ⟨_, hp⟩ | ⟨f, _, _, hp, hlt⟩
        · rwa [hp] at hrec
        · rw [hp] at hrec
          exact lt_trans hlt hrec

/-- Helper: the counter values of the transform invocations of a proc run
are strictly increasing in event order. -/
lemma proc_run_transform_pairwise {Img : Type} (process_frame : Img → Img)
    (hasPacer : Bool) (os : List (ProcObs Img)) :
    ∀ (prev_count : Nat),
      (transformPairs (proc_run process_frame hasPacer prev_count os).1).Pairwise
        (fun a b => a.1 < b.1) := by
  induction os with
  | nil =>
    intro prev
    simp [proc_run, transformPairs]
  | cons o os ih =>
    intro prev
    rw [proc_run_cons]
    by_cases hh : (proc_iter process_frame hasPacer prev o).halted
    · rw [if_pos hh, List.append_nil]
      rcases proc_iter_transform_cases process_frame hasPacer prev o with
        ⟨he, _⟩ | ⟨f, _, he, _, _⟩ <;> rw [he] <;> simp
    · rw [if_neg hh, transformPairs_append, List.pairwise_append]
      refine ⟨?_, ih _, ?_⟩
      · rcases proc_iter_transform_cases process_frame hasPacer prev o with
          ⟨he, _⟩ | ⟨f, _, he, _, _⟩ <;> rw [he] <;> simp
      · intro a ha b hb
        rcases proc_iter_transform_cases process_frame hasPacer prev o with
          ⟨he, _⟩ | ⟨f, _, he, hp, hlt⟩
        · rw [he] at ha; simp at ha
        · rw [he] at ha
          have hb2 := proc_run_transform_gt process_frame hasPacer os _ b hb
          rw [hp] at hb2
          have hpr := List.mem_singleton.mp ha
          subst hpr
          exact hb2

/-- Claim C4: the proc loop never invokes the transform twice on the same
observed frame: across any run, the grab-counter values of the transform
invocations are strictly increasing (so no counter value is processed
twice), every invocation happens at a counter strictly past the starting
observation, and when the counter advances from N to N+1 exactly once
between two observations (frame present, no cancel key), the transform is
invoked exactly once, on that frame. -/
theorem proc_no_duplicate_processing {Img : Type} (process_frame : Img → Img)
    (hasPacer : Bool) (os : List (ProcObs Img)) (prev_count : Nat) :
    ((transformPairs (proc_run process_frame hasPacer prev_count os).1).Pairwise
        (fun a b => a.1 < b.1))
    ∧ (∀ pr ∈ transformPairs (proc_run process_frame hasPacer prev_count os).1,
        prev_count < pr.1)
    ∧ (∀ (N : Nat) (f : Img) (k : Int), k ≠ 27 →
        transformPairs
            (proc_iter process_frame hasPacer N ⟨N + 1, some f, k⟩).events
          = [(N + 1, f)]) := by
  refine ⟨proc_run_transform_pairwise process_frame hasPacer os prev_count,
    fun pr h => proc_run_transform_gt process_frame hasPacer os prev_count pr h,
    fun N f k hk => ?_⟩
  cases hasPacer <;>
    simp [proc_iter, Nat.lt_succ_self, hk, transformPairs, ProcEvent.transformPair]

/-- Claim C4 witness: a concrete run and a concrete single-advance
iteration instantiating proc_no_duplicate_processing. -/
theorem proc_no_duplicate_processing_witness :
    ((transformPairs (proc_run (fun x : Nat => x + 1) true 0
        [⟨1, some 7, -1⟩, ⟨1, some 8, -1⟩]).1).Pairwise
        (fun a b => a.1 < b.1))
    ∧ (0 < (1, 7).1)
    ∧ (transformPairs
          (proc_iter (fun x : Nat => x + 1) true 0 ⟨1, some 7, -1⟩).events
        = [(1, 7)]) :=
  ⟨(proc_no_duplicate_processing (fun x : Nat => x + 1) true
      [⟨1, some 7, -1⟩, ⟨1, some 8, -1⟩] 0).1,
   (proc_no_duplicate_processing (fun x : Nat => x + 1) true
      [⟨1, some 7, -1⟩, ⟨1, some 8, -1⟩] 0).2.1 (1, 7) (by decide),
   (proc_no_duplicate_processing (fun x : Nat => x + 1) true
      [⟨1, some 7, -1⟩, ⟨1, some 8, -1⟩] 0).2.2 0 7 (-1) (by decide)⟩

/-- Claim C5 counterexample: an iteration in which the grab counter has
not advanced performs no cancel-key poll at all, so the key is not checked
once per proc-loop iteration. -/
theorem proc_poll_counterexample :
    ((proc_iter (fun x : Nat => x) true 5 ⟨5, some 3, -1⟩).events.countP
        ProcEvent.isPollKey = 0)
    ∧ ¬ ((proc_iter (fun x : Nat => x) true 5 ⟨5, some 3, -1⟩).events.countP
        ProcEvent.isPollKey = 1) := by
  decide

/-- Claim C5 (amended): the proc loop polls the render sink for the cancel
key exactly in those iterations that observe an advanced grab counter with
a present frame (the Python or short-circuits past the poll when the frame
is absent), and never in an iteration without a new frame. -/
theorem proc_polls_key_exactly_on_new_present_frame {Img : Type}
    (process_frame : Img → Img) (hasPacer : Bool) (prev_count : Nat)
    (o : ProcObs Img) :
    (proc_iter process_frame hasPacer prev_count o).events.countP
        ProcEvent.isPollKey
      = if prev_count < o.count ∧ o.slot.isSome = true then 1 else 0 := by
  rcases o with ⟨c, slot, k⟩
  by_cases h : prev_count < c
  · cases slot with
    | none => simp [proc_iter, h, ProcEvent.isPollKey]
    | some f =>
      by_cases hk : k = 27 <;> cases hasPacer <;>
        simp [proc_iter, h, hk, ProcEvent.isPollKey]
  · cases hasPacer <;> simp [proc_iter, h, ProcEvent.isPollKey]

/-- Claim C9: if the proc loop observes an absent frame in an iteration in
which the grab counter has advanced past its previous observation, it
invokes full shutdown (and the SystemExit raised by stop halts the
loop). -/
theorem proc_absent_frame_triggers_shutdown {Img : Type}
    (process_frame : Img → Img) (hasPacer : Bool) (prev_count c : Nat)
    (k : Int) (h : prev_count < c) :
    ((proc_iter process_frame hasPacer prev_count
        ⟨c, (none : Option Img), k⟩).events
      = [ProcEvent.readSlot none, ProcEvent.stopCall])
    ∧ (proc_iter process_frame hasPacer prev_count
        ⟨c, (none : Option Img), k⟩).halted = true := by
  constructor <;> simp [proc_iter, h]

/-- Claim C9 witness: concrete instantiation with the counter advanced
from 0 to 1 and an empty slot. -/
theorem proc_absent_frame_triggers_shutdown_witness :
    (0 < 1)
    ∧ ((proc_iter (fun x : Nat => x) true 0
          ⟨1, (none : Option Nat), -1⟩).events
        = [ProcEvent.readSlot none, ProcEvent.stopCall])
    ∧ (proc_iter (fun x : Nat => x) true 0
        ⟨1, (none : Option Nat), -1⟩).halted = true :=
  ⟨Nat.zero_lt_one,
   proc_absent_frame_triggers_shutdown (fun x : Nat => x) true 0 1 (-1)
     Nat.zero_lt_one⟩

/-- Claim C2 counterexample: calling stop twice on a concrete pipeline
state emits twelve statistics lines and two display releases, not one set
of statistics and one release. -/
theorem stop_twice_duplicates_counterexample :
    ((stopTwiceEvents
        { grab_fps := ⟨0, none, 3⟩, proc_fps := ⟨0, none, 2⟩,
          grab_stop_event := false, proc_stop_event := false } 5 9).countP
        SysEvent.isStatLine = 12)
    ∧ ¬ ((stopTwiceEvents
        { grab_fps := ⟨0, none, 3⟩, proc_fps := ⟨0, none, 2⟩,
          grab_stop_event := false, proc_stop_event := false } 5 9).countP
        SysEvent.isStatLine = 6)
    ∧ ((stopTwiceEvents
        { grab_fps := ⟨0, none, 3⟩, proc_fps := ⟨0, none, 2⟩,
          grab_stop_event := false, proc_stop_event := false } 5 9).countP
        SysEvent.isDestroy = 2)
    ∧ ¬ ((stopTwiceEvents
        { grab_fps := ⟨0, none, 3⟩, proc_fps := ⟨0, none, 2⟩,
          grab_stop_event := false, proc_stop_event := false } 5 9).countP
        SysEvent.isDestroy = 1) := by
  refine ⟨rfl, by decide, rfl, by decide⟩

/-- Claim C2 (amended): stop is not idempotent: it has no re-entry guard,
so every call emits the full set of six statistics lines and releases the
display resources again; two sequential calls from any state produce
twelve statistics lines and two display releases. -/
theorem stop_not_reentry_safe (s : PipelineCtl) (t1 t2 : Nat) :
    ((stopTwiceEvents s t1 t2).countP SysEvent.isStatLine = 12)
    ∧ ((stopTwiceEvents s t1 t2).countP SysEvent.isDestroy = 2) :=
  ⟨rfl, rfl⟩

/-- Claim C3 counterexample: the six statistics lines of stop go to
standard output, not to the error stream: on a concrete state the channels
of the emitted lines are six times stdout and not six times stderr. -/
theorem stop_stats_channel_counterexample :
    (((VideoStreamABC.stop 10
        { grab_fps := ⟨0, none, 3⟩, proc_fps := ⟨0, none, 2⟩,
          grab_stop_event := false, proc_stop_event := false }).2.filterMap
        SysEvent.statChannel) = List.replicate 6 Channel.stdout)
    ∧ ¬ (((VideoStreamABC.stop 10
        { grab_fps := ⟨0, none, 3⟩, proc_fps := ⟨0, none, 2⟩,
          grab_stop_event := false, proc_stop_event := false }).2.filterMap
        SysEvent.statChannel) = List.replicate 6 Channel.stderr) := by
  refine ⟨rfl, by decide⟩

/-- Claim C3 (amended): on shutdown, stop emits exactly six statistics
lines — grab elapsed time, grab approximate fps, grab frame count, proc
elapsed time, proc approximate fps, proc frame count, in that order — all
on standard output (plain print, not the eprint stderr helper), each
carrying the value of the corresponding frozen counter, then sets both
thread stop flags, destroys the display windows, and ends with
sys.exit(0): the full event list of any stop call is exactly this
sequence. -/
theorem stop_six_stdout_lines_then_exit (s : PipelineCtl) (now : Nat) :
    (VideoStreamABC.stop now s).2
      = [ SysEvent.outLine Channel.stdout
            (StatLine.grabElapsed ((s.grab_fps.stop now).elapsed now)),
          SysEvent.outLine Channel.stdout
            (StatLine.grabFPS ((s.grab_fps.stop now).fps now)),
          SysEvent.outLine Channel.stdout
            (StatLine.grabNFrames (s.grab_fps.stop now).n_frames),
          SysEvent.outLine Channel.stdout
            (StatLine.procElapsed ((s.proc_fps.stop now).elapsed now)),
          SysEvent.outLine Channel.stdout
            (StatLine.procFPS ((s.proc_fps.stop now).fps now)),
          SysEvent.outLine Channel.stdout
            (StatLine.procNFrames (s.proc_fps.stop now).n_frames),
          SysEvent.stopGrabThread,
          SysEvent.stopProcThread,
          SysEvent.destroyAllWindows,
          SysEvent.sysExit 0 ] :=
  rfl

/-- Claim C8 counterexample: the error raised by the abstract
process_frame hook is the builtin Exception class, not of the
NotImplementedError class. -/
theorem process_frame_error_class_counterexample :
    (VideoStreamABC.process_frame (0 : Nat)
      = Except.error (PyError.exception abstractMethodMsg))
    ∧ (PyError.isNotImplementedKind (PyError.exception abstractMethodMsg)
        = false) :=
  ⟨rfl, rfl⟩

/-- Claim C8 (amended): a pipeline used without supplying the transform
capability fails at the first invocation of the hook — construction does
not enforce it, since the Python-2-style metaclass declaration has no
effect in Python 3 — by raising a plain builtin Exception carrying the
message "Abstract method process_frame() not implemented!", fatal to that
invocation. -/
theorem process_frame_raises_plain_exception {Img : Type} (frame : Img) :
    (VideoStreamABC.process_frame frame
      = Except.error (PyError.exception abstractMethodMsg))
    ∧ ((PyError.exception abstractMethodMsg).isNotImplementedKind = false) :=
  ⟨rfl, rfl⟩

/-- Claim C7: evaluation of the slip in AvgFrames.process_frame at a
concrete input: the first call only initialises the accumulator, but the
second call assigns the accumulated average into self.frame, the shared
frame slot inherited from the pipeline, overwriting the frame the grab
worker last stored there (the library calls are instantiated with concrete
functions on Nat images). -/
theorem avg_frames_writes_shared_slot :
    ((AvgFrames.process_frame (fun x : Nat => x) (fun f a => f + a)
        (fun x => x) { avg_frame := none, frame := some 99 } 10).1
      = { avg_frame := some 10, frame := some 99 })
    ∧ ((AvgFrames.process_frame (fun x : Nat => x) (fun f a => f + a)
        (fun x => x) { avg_frame := some 10, frame := some 99 } 5).1
      = { avg_frame := some 15, frame := some 15 })
    ∧ ¬ ((AvgFrames.process_frame (fun x : Nat => x) (fun f a => f + a)
        (fun x => x) { avg_frame := some 10, frame := some 99 } 5).1.frame
      = some 99) := by
  refine ⟨rfl, rfl, by decide⟩

end VideoLoops
